import Mathlib

/-!
Verification of the instrumentpy framed command/response protocol layer:
the TS3 frame builder and checksum, the response parser and NACK dispatch,
the serial transport's lazy-open behaviour, and the MX100TP memory-store
range checks.  Definitions are shallow embeddings of the Python source in
`src/instrumentpy`.
-/

namespace Instrumentpy

set_option maxRecDepth 100000

/-! ## Byte-level string model

Python `str.encode()` produces the UTF-8 bytes of the string.  Bytes are
modelled as `Nat` (always < 256). -/

/-- UTF-8 encoding of a single character, as a list of byte values.
Model of what Python `str.encode()` does per code point. -/
def encodeChar (c : Char) : List Nat :=
  let n := c.toNat
  if n < 0x80 then [n]
  else if n < 0x800 then [0xC0 + n / 64, 0x80 + n % 64]
  else if n < 0x10000 then [0xE0 + n / 4096, 0x80 + n / 64 % 64, 0x80 + n % 64]
  else [0xF0 + n / 262144, 0x80 + n / 4096 % 64, 0x80 + n / 64 % 64, 0x80 + n % 64]

/-- Python `s.encode()`: the UTF-8 bytes of `s`. -/
def encode (s : String) : List Nat :=
  s.data.flatMap encodeChar

/-- Python string slicing `s[:n]` (by characters). -/
def strTake (s : String) (n : Nat) : String :=
  String.mk (s.data.take n)

/-- Python string slicing `s[n:]` (by characters). -/
def strDrop (s : String) (n : Nat) : String :=
  String.mk (s.data.drop n)

/-! ## CRC configuration of the TS3 class (`ts3.py`, lines 27-36) -/

/-- CRC width in bits. -/
def width : Nat := 16

/-- CRC polynomial. -/
def poly : Nat := 0x8005

/-- CRC initial value. -/
def init_value : Nat := 0xFFFF

/-- CRC final XOR value. -/
def final_xor_value : Nat := 0x0000

/-- Reflect the low `w` bits of `n` (bit `i` moves to bit `w - 1 - i`). -/
def reflectBits (w n : Nat) : Nat :=
  (List.range w).foldl (fun acc i => acc + (if n.testBit i then 2 ^ (w - 1 - i) else 0)) 0

/-- One MSB-first shift step of the CRC register, masked to 16 bits. -/
def crcStep (crc : Nat) : Nat :=
  if crc &&& 0x8000 ≠ 0 then ((crc <<< 1) ^^^ poly) &&& 0xFFFF
  else (crc <<< 1) &&& 0xFFFF

/-- Fold one input byte into the CRC register: the byte is bit-reflected
(input reflection is on), xored into the top of the register, and the
register is shifted eight times. -/
def crcByte (crc b : Nat) : Nat :=
  crcStep^[8] (crc ^^^ (reflectBits 8 b <<< 8))

/-- Modelled from the spec: the checksum algorithm of the external `crc`
package used by `TS3.crc_calculator` — CRC-16 with width 16, polynomial
0x8005, initial value 0xFFFF, final XOR 0x0000, input and output both
bit-reflected, computed bit by bit (no lookup table). -/
def crcChecksum (data : List Nat) : Nat :=
  reflectBits width (data.foldl crcByte init_value) ^^^ final_xor_value

/-- Modelled from the spec: an independent reference formulation of the same
CRC (LSB-first with the reflected polynomial 0xA001), used as the
pre-computed reference value for the checksum property. -/
def refCrc16 (data : List Nat) : Nat :=
  data.foldl
    (fun crc b =>
      (fun c => if c &&& 1 = 1 then (c >>> 1) ^^^ 0xA001 else c >>> 1)^[8] (crc ^^^ b))
    0xFFFF

/-- Uppercase hexadecimal digit for `n < 16`. -/
def hexDigit (n : Nat) : Char :=
  if n < 10 then Char.ofNat (48 + n) else Char.ofNat (55 + n)

/-- Python `f"{n:04X}"` for `n < 0x10000`: exactly four uppercase hex digits. -/
def hex4 (n : Nat) : String :=
  String.mk [hexDigit (n / 4096 % 16), hexDigit (n / 256 % 16), hexDigit (n / 16 % 16),
    hexDigit (n % 16)]

/-- Model of `TS3._calc_crc`: compute the checksum of `data`, render it as four
uppercase hex digits, and swap the two 2-character halves
(`result[2:] + result[:2]`). -/
def calc_crc (data : List Nat) : String :=
  let result := hex4 (crcChecksum data)
  strDrop result 2 ++ strTake result 2

/-! ## Frame construction (`TS3._build_cmd`) -/

/-- Python `";".join(args)`. -/
def joinSemi : List String → String
  | [] => ""
  | [s] => s
  | s :: rest => s ++ ";" ++ joinSemi rest

/-- Python `"{:03d}".format(n)` for nonnegative `n`: decimal digits
zero-padded on the left to a minimum width of three. -/
def pyFormat03d (n : Nat) : String :=
  let s := toString n
  if s.length < 3 then String.mk (List.replicate (3 - s.length) '0') ++ s else s

/-- The format string `"${:03d};{:s};{:s}"` of `_build_cmd`, applied. -/
def commandFormat (n : Nat) (joined checksum : String) : String :=
  "$" ++ pyFormat03d n ++ ";" ++ joined ++ ";" ++ checksum

/-- The provisional command string of `_build_cmd`: length placeholder `0`,
checksum placeholder `"0000"`. -/
def provisionalCmd (args : List String) : String :=
  commandFormat 0 (joinSemi args) "0000"

/-- Model of `TS3._build_cmd`: format the provisional command, compute the checksum
over its bytes, re-format with the real length and the checksum, and append
a carriage return.  Returns the frame bytes. -/
def build_cmd (args : List String) : List Nat :=
  let command := provisionalCmd args
  let checksum := calc_crc (encode command)
  let cmd := commandFormat command.length (joinSemi args) checksum
  encode cmd ++ encode "\r"

/-! ## Response parsing (`TS3._get_command_response`, `TS3._handle_nack_response`)

A raised Python exception is modelled as an error value: `TS3Error` carries
either a message string or the sentinel integer `-1`; an unguarded list
index out of range raises `IndexError`. -/

/-- The argument carried by a raised `TS3Error`. -/
inductive ExcVal where
  | str (s : String)
  | int (n : Int)
deriving DecidableEq

/-- A raised exception: a `TS3Error`, or an `IndexError` from an unguarded
list index. -/
inductive PyError where
  | ts3 (v : ExcVal)
  | indexError
deriving DecidableEq

/-- Whether a raised exception is a `TS3Error` (the spec's Protocol Error),
as opposed to an `IndexError`. -/
def isTs3 : PyError → Bool
  | .ts3 _ => true
  | .indexError => false

/-- Auxiliary for `pySplitSemi`: accumulate the current piece (reversed). -/
def splitSemiAux : List Char → List Char → List String
  | acc, [] => [String.mk acc.reverse]
  | acc, c :: cs =>
    if c = ';' then String.mk acc.reverse :: splitSemiAux [] cs
    else splitSemiAux (c :: acc) cs

/-- Python `s.split(";")`: split on every semicolon; always at least one
piece (the empty string splits to `[""]`). -/
def pySplitSemi (s : String) : List String :=
  splitSemiAux [] s.data

/-- The fixed NACK message for error code `code` (`_handle_nack_response`):
codes `"1"` to `"11"` map to fixed texts (whitespace exactly as in the
source's continued string literals); any other code is passed through
verbatim. -/
def nackMessage (code : String) : String :=
  if code = "1" then "Unknown command"
  else if code = "2" then
    "Parameter out of range.                         One or more of the parameters are outside the range."
  else if code = "3" then "Busy. The unit is busy and cannot handle communications."
  else if code = "4" then
    "Not logged in.                         The command that has been sent requires a correct login."
  else if code = "5" then
    "Command not yet implemented.                         The command is known, but the implementation is not yet done."
  else if code = "6" then
    "Message structure incorrect.                         One or more parts of the message are incorrect                             (BOR, EOR, CRC, Length etc)."
  else if code = "7" then "Incorrect number of parameters for this command."
  else if code = "8" then "ID not found."
  else if code = "9" then
    "Internal error.                         The command could not be executed due to internal problems."
  else if code = "10" then
    "Booting.                         The unit is still booting and cannot handle communications at this time."
  else if code = "11" then "DUT not present."
  else code

/-- Model of `TS3._handle_nack_response`: every branch raises.  Reading
`response_array[2]` is unguarded, so a too-short array raises `IndexError`;
otherwise a `TS3Error` with the mapped message is raised. -/
def handle_nack_response (response_array : List String) : PyError :=
  match response_array.get? 2 with
  | none => .indexError
  | some code => .ts3 (.str (nackMessage code))

/-- Model of `TS3._get_command_response`, as a function of the decoded response text:
split on `;`, read `response_array[1]` (unguarded), dispatch NACK, match the
expected code, or raise `TS3Error(-1)`. -/
def get_command_response (expected_command : String) (response : String) :
    Except PyError (List String) :=
  let response_array := pySplitSemi response
  match response_array.get? 1 with
  | none => .error .indexError
  | some f1 =>
    if f1 = "2" then .error (handle_nack_response response_array)
    else if f1 = expected_command then .ok response_array
    else .error (.ts3 (.int (-1)))

/-! ## Boolean-returning operations (`ts3.py`)

Each operation sends one frame and parses one response; its result is a
function of the decoded response text.  Reading a payload field is
unguarded Python indexing. -/

/-- Python `str(int(b))` for a boolean argument. -/
def pyBoolArg (b : Bool) : String :=
  if b then "1" else "0"

/-- Read `arr[i]` with Python semantics: `IndexError` when out of range. -/
def pyIndex (arr : List String) (i : Nat) : Except PyError String :=
  match arr.get? i with
  | none => .error .indexError
  | some v => .ok v

/-- Model of `TS3.get_dut_present`: sends command `"25"`, expects code `"25"`,
returns `response[2] == "1"`. -/
def get_dut_present (response : String) : Except PyError Bool :=
  match get_command_response "25" response with
  | .error e => .error e
  | .ok arr =>
    match pyIndex arr 2 with
    | .error e => .error e
    | .ok f => .ok (f == "1")

/-- Model of `TS3.get_power_supply`: sends command `"26"`, expects code `"26"`,
returns `response[2] == "1"` (not a parsed voltage). -/
def get_power_supply (response : String) : Except PyError Bool :=
  match get_command_response "26" response with
  | .error e => .error e
  | .ok arr =>
    match pyIndex arr 2 with
    | .error e => .error e
    | .ok f => .ok (f == "1")

/-- Model of `TS3.get_dig_input_pin`: sends command `"41"`, expects code `"41"`,
returns `response[2] == "1"`. -/
def get_dig_input_pin (response : String) : Except PyError Bool :=
  match get_command_response "41" response with
  | .error e => .error e
  | .ok arr =>
    match pyIndex arr 2 with
    | .error e => .error e
    | .ok f => .ok (f == "1")

/-- Model of `TS3.get_user_highlow_input_pin`: sends command `"45"`, expects code
`"45"`, returns `response[2] == "1"`. -/
def get_user_highlow_input_pin (response : String) : Except PyError Bool :=
  match get_command_response "45" response with
  | .error e => .error e
  | .ok arr =>
    match pyIndex arr 2 with
    | .error e => .error e
    | .ok f => .ok (f == "1")

/-- Model of `TS3.get_dut_power`: sends command `"27"`, expects code `"1"`, returns
the pair `(response[2] == "1", response[3] == "1")`. -/
def get_dut_power (response : String) : Except PyError (Bool × Bool) :=
  match get_command_response "1" response with
  | .error e => .error e
  | .ok arr =>
    match pyIndex arr 2 with
    | .error e => .error e
    | .ok f2 =>
      match pyIndex arr 3 with
      | .error e => .error e
      | .ok f3 => .ok (f2 == "1", f3 == "1")

/-! ## `TS3.set_dut_power` with its settle delay (C6)

The operation is modelled as the trace of externally visible actions it
performs (the frame sent, a sleep), together with the raised error if any:
send the frame, read and check the acknowledgment, and only then
`time.sleep(0.5)` (500 ms). -/

/-- An externally visible action of an operation. -/
inductive Event where
  | send (data : List Nat)
  | sleep (ms : Nat)
deriving DecidableEq

/-- Model of `TS3.set_dut_power`: send command `"24"` with the three stringified
boolean arguments, require acknowledgment code `"1"`, then sleep 500 ms.
Result: the trace of actions, and the raised error (`none` on success). -/
def set_dut_power (dut_power dut_enable overrule : Bool) (response : String) :
    List Event × Option PyError :=
  let cmd := build_cmd ["24", pyBoolArg dut_power, pyBoolArg dut_enable, pyBoolArg overrule]
  match get_command_response "1" response with
  | .ok _ => ([.send cmd, .sleep 500], none)
  | .error e => ([.send cmd], some e)

/-! ## Serial transport (`common/serial_device.py`)

The underlying pyserial handle is modelled by its open flag, the bytes
waiting to be read, and the log of writes performed on it. -/

/-- State of the underlying pyserial `Serial` handle. -/
structure PySerial where
  is_open : Bool
  inBuffer : List Nat
  written : List (List Nat)
deriving DecidableEq

/-- Model of `serial.open()`: the line becomes open. -/
def serialOpen (s : PySerial) : PySerial :=
  { s with is_open := true }

/-- Model of `serial.write(data)`: record the write, return the byte count written. -/
def serialWrite (s : PySerial) (data : List Nat) : PySerial × Nat :=
  ({ s with written := s.written ++ [data] }, data.length)

/-- The line read by `serial.readline()`: bytes up to and including the
first line-feed terminator (or the whole buffer if none). -/
def takeLine : List Nat → List Nat
  | [] => []
  | b :: bs => if b = 10 then [10] else b :: takeLine bs

/-- The bytes remaining in the buffer after `serial.readline()`. -/
def dropLine : List Nat → List Nat
  | [] => []
  | b :: bs => if b = 10 then bs else dropLine bs

/-- Model of `serial.readline()`: consume and return one terminated line. -/
def serialReadline (s : PySerial) : PySerial × List Nat :=
  ({ s with inBuffer := dropLine s.inBuffer }, takeLine s.inBuffer)

/-- The guard at the top of both `SerialDevice` methods:
`if self._serial.is_open is False: self._serial.open()`. -/
def ensure_open (s : PySerial) : PySerial :=
  if s.is_open = false then serialOpen s else s

/-- Model of `SerialDevice.send_command`: open the line if it is not open, then
write `data`; returns the new handle state and the write's return value. -/
def send_command (s : PySerial) (data : List Nat) : PySerial × Nat :=
  serialWrite (ensure_open s) data

/-- Model of `SerialDevice.receive_output`: open the line if it is not open, then
read one line; the `length` argument is never used. -/
def receive_output (s : PySerial) (_length : Nat) : PySerial × List Nat :=
  serialReadline (ensure_open s)

/-! ## MX100TP memory stores (`psu/aimtti/mx100tp.py`)

The transport is modelled by the list of command strings sent so far; each
method returns the updated list and the raised `ValueError` message if
any.  The range check precedes the send. -/

/-- The `ValueError` message of both memory-store methods. -/
def memoryStoreError : String :=
  "Memory store out of range. 0-49 inclusive is allowed."

/-- Model of `MX100TP.save_settings`: reject `memory_store` outside `0..49` before
touching the transport, else send `*SAV <n>\n`. -/
def save_settings (sent : List String) (memory_store : Int) : List String × Option String :=
  if memory_store < 0 ∨ memory_store > 49 then (sent, some memoryStoreError)
  else (sent ++ ["*SAV " ++ toString memory_store ++ "\n"], none)

/-- Model of `MX100TP.recall_settings`: reject `memory_store` outside `0..49` before
touching the transport, else send `*RCL <n>\n`. -/
def recall_settings (sent : List String) (memory_store : Int) : List String × Option String :=
  if memory_store < 0 ∨ memory_store > 49 then (sent, some memoryStoreError)
  else (sent ++ ["*RCL " ++ toString memory_store ++ "\n"], none)

/-- Equality of `Except` results is decidable (needed to evaluate parser
outcomes on concrete inputs). -/
instance {ε α : Type} [DecidableEq ε] [DecidableEq α] : DecidableEq (Except ε α)
  | .error a, .error b =>
    if h : a = b then isTrue (congrArg Except.error h)
    else isFalse fun hc => h (Except.error.inj hc)
  | .error _, .ok _ => isFalse fun hc => Except.noConfusion hc
  | .ok _, .error _ => isFalse fun hc => Except.noConfusion hc
  | .ok a, .ok b =>
    if h : a = b then isTrue (congrArg Except.ok h)
    else isFalse fun hc => h (Except.ok.inj hc)

/-! ## Theorems -/

/-- C1: for every argument list, `_build_cmd` returns the bytes of `$` +
the zero-padded length + `;` + the arguments joined by `;` + `;` + the
4-hex-digit checksum + CR, where the length field is the character length
of the provisional command string (length placeholder `0`, checksum
placeholder `"0000"`) and the checksum is computed over that provisional
string, not over the final framed string. -/
theorem build_cmd_frame_structure (args : List String) :
    provisionalCmd args = "$000;" ++ joinSemi args ++ ";0000"
    ∧ build_cmd args =
        encode ("$" ++ pyFormat03d (provisionalCmd args).length ++ ";" ++ joinSemi args ++ ";"
          ++ calc_crc (encode (provisionalCmd args))) ++ [13] := by
  constructor
  · show "$" ++ pyFormat03d 0 ++ ";" ++ joinSemi args ++ ";" ++ "0000"
      = "$000;" ++ joinSemi args ++ ";0000"
    have h0 : pyFormat03d 0 = "000" := rfl
    rw [h0]
    apply String.ext
    simp only [String.data_append, List.append_assoc]
    rfl
  · rfl

/-- C2: the checksum embedded in a frame is the CRC-16 (width 16,
polynomial 0x8005, initial value 0xFFFF, final XOR 0x0000, input and
output bit-reflected) of the provisional bytes, rendered as four uppercase
hex digits with the two 2-character halves swapped; for args `["10"]` the
checksum of the provisional bytes `$000;10;0000` matches the independent
reference CRC implementation and equals `0xC626`, embedded as `"26C6"`. -/
theorem calc_crc_checksum_reference :
    (∀ data : List Nat,
      calc_crc data = strDrop (hex4 (crcChecksum data)) 2 ++ strTake (hex4 (crcChecksum data)) 2)
    ∧ crcChecksum (encode "$000;10;0000") = refCrc16 (encode "$000;10;0000")
    ∧ refCrc16 (encode "$000;10;0000") = 0xC626
    ∧ calc_crc (encode "$000;10;0000") = "26C6"
    ∧ build_cmd ["10"] = encode "$012;10;26C6" ++ [13] :=
  ⟨fun _ => rfl, by decide, by decide, by decide, by decide⟩

/-- C3 counterexample: for response text `"0;2"` field 1 is `"2"`, yet the
NACK path raises an `IndexError`, not a `TS3Error` (Protocol Error) as the
claim states. -/
theorem get_command_response_nack_counterexample :
    (pySplitSemi "0;2").get? 1 = some "2"
    ∧ get_command_response "1" "0;2" = .error .indexError
    ∧ isTs3 .indexError = false := by decide

/-- C3 (amended): given that field 1 of the split response exists, the
dispatch is exhaustive and in order: if field 1 is `"2"` the NACK path
never returns — it raises a `TS3Error` when field 2 exists and an
`IndexError` otherwise; else if field 1 equals the expected code the full
field sequence is returned; else a `TS3Error` with sentinel `-1` is
raised. -/
theorem get_command_response_dispatch (expected response f1 : String)
    (h : (pySplitSemi response).get? 1 = some f1) :
    (f1 = "2" →
      get_command_response expected response = .error (handle_nack_response (pySplitSemi response))
      ∧ ∀ r, get_command_response expected response ≠ .ok r)
    ∧ (f1 = "2" → ∀ code, (pySplitSemi response).get? 2 = some code →
        get_command_response expected response = .error (.ts3 (.str (nackMessage code))))
    ∧ (f1 = "2" → (pySplitSemi response).get? 2 = none →
        get_command_response expected response = .error .indexError)
    ∧ (f1 ≠ "2" → f1 = expected →
        get_command_response expected response = .ok (pySplitSemi response))
    ∧ (f1 ≠ "2" → f1 ≠ expected →
        get_command_response expected response = .error (.ts3 (.int (-1)))) := by
  have hm : get_command_response expected response =
      (if f1 = "2" then .error (handle_nack_response (pySplitSemi response))
       else if f1 = expected then .ok (pySplitSemi response)
       else .error (.ts3 (.int (-1)))) := by
    simp only [get_command_response]
    rw [h]
  refine ⟨fun h2 => ⟨?_, ?_⟩, fun h2 code hc => ?_, fun h2 hc => ?_,
    fun h2 he => ?_, fun h2 he => ?_⟩
  · rw [hm, if_pos h2]
  · intro r
    rw [hm, if_pos h2]
    simp
  · rw [hm, if_pos h2]
    unfold handle_nack_response
    rw [hc]
  · rw [hm, if_pos h2]
    unfold handle_nack_response
    rw [hc]
  · rw [hm, if_neg h2, if_pos he]
  · rw [hm, if_neg h2, if_neg he]

/-- C3 witness: a matched response is returned whole. -/
theorem get_command_response_dispatch_witness :
    get_command_response "13" "0;13;1;2;3" = .ok ["0", "13", "1", "2", "3"] :=
  (get_command_response_dispatch "13" "0;13;1;2;3" "13" (by decide)).2.2.2.1
    (by decide) rfl

/-- C4: in NACK handling, any present field 2 raises a `TS3Error` with the
mapped message; codes `"1"`..`"11"` each map to their fixed text; any other
code is carried verbatim; and whenever field 1 is `"2"` the operation never
returns a value. -/
theorem handle_nack_messages :
    (∀ arr code, arr.get? 2 = some code →
      handle_nack_response arr = .ts3 (.str (nackMessage code)))
    ∧ nackMessage "1" = "Unknown command"
    ∧ nackMessage "2" =
        "Parameter out of range.                         One or more of the parameters are outside the range."
    ∧ nackMessage "3" = "Busy. The unit is busy and cannot handle communications."
    ∧ nackMessage "4" =
        "Not logged in.                         The command that has been sent requires a correct login."
    ∧ nackMessage "5" =
        "Command not yet implemented.                         The command is known, but the implementation is not yet done."
    ∧ nackMessage "6" =
        "Message structure incorrect.                         One or more parts of the message are incorrect                             (BOR, EOR, CRC, Length etc)."
    ∧ nackMessage "7" = "Incorrect number of parameters for this command."
    ∧ nackMessage "8" = "ID not found."
    ∧ nackMessage "9" =
        "Internal error.                         The command could not be executed due to internal problems."
    ∧ nackMessage "10" =
        "Booting.                         The unit is still booting and cannot handle communications at this time."
    ∧ nackMessage "11" = "DUT not present."
    ∧ (∀ code, code ∉ (["1", "2", "3", "4", "5", "6", "7", "8", "9", "10", "11"] : List String) →
        nackMessage code = code)
    ∧ (∀ expected response, (pySplitSemi response).get? 1 = some "2" →
        ∀ r, get_command_response expected response ≠ .ok r) := by
  refine ⟨fun arr code hc => ?_, rfl, rfl, rfl, rfl, rfl, rfl, rfl, rfl, rfl, rfl, rfl,
    fun code hc => ?_, fun expected response h r => ?_⟩
  · unfold handle_nack_response
    rw [hc]
  · simp only [List.mem_cons, List.not_mem_nil, or_false, not_or] at hc
    obtain ⟨h1, h2, h3, h4, h5, h6, h7, h8, h9, h10, h11⟩ := hc
    unfold nackMessage
    rw [if_neg h1, if_neg h2, if_neg h3, if_neg h4, if_neg h5, if_neg h6, if_neg h7,
      if_neg h8, if_neg h9, if_neg h10, if_neg h11]
  · simp only [get_command_response]
    rw [h]
    simp

/-- C4 witness: a NACK with code 3 raises the fixed busy message. -/
theorem handle_nack_messages_witness :
    handle_nack_response ["0", "2", "3"] =
      .ts3 (.str "Busy. The unit is busy and cannot handle communications.") :=
  (handle_nack_messages.1 ["0", "2", "3"] "3" rfl).trans (by decide)

/-- C5: each boolean-returning operation maps its payload field to the
comparison with the literal `"1"` and never raises once the response code
check has passed and the field exists; `get_power_supply` compares field 2
to `"1"` rather than parsing a voltage, and `get_dut_power` returns the
pair of comparisons of fields 2 and 3. -/
theorem bool_ops_compare_field_to_one (response : String) (arr : List String) (f2 f3 : String) :
    (get_command_response "25" response = .ok arr → arr.get? 2 = some f2 →
      get_dut_present response = .ok (f2 == "1"))
    ∧ (get_command_response "26" response = .ok arr → arr.get? 2 = some f2 →
        get_power_supply response = .ok (f2 == "1"))
    ∧ (get_command_response "41" response = .ok arr → arr.get? 2 = some f2 →
        get_dig_input_pin response = .ok (f2 == "1"))
    ∧ (get_command_response "45" response = .ok arr → arr.get? 2 = some f2 →
        get_user_highlow_input_pin response = .ok (f2 == "1"))
    ∧ (get_command_response "1" response = .ok arr → arr.get? 2 = some f2 →
        arr.get? 3 = some f3 → get_dut_power response = .ok (f2 == "1", f3 == "1")) := by
  refine ⟨fun h hf => ?_, fun h hf => ?_, fun h hf => ?_, fun h hf => ?_, fun h hf hg => ?_⟩
  · simp only [get_dut_present, pyIndex, h, hf]
  · simp only [get_power_supply, pyIndex, h, hf]
  · simp only [get_dig_input_pin, pyIndex, h, hf]
  · simp only [get_user_highlow_input_pin, pyIndex, h, hf]
  · simp only [get_dut_power, pyIndex, h, hf, hg]

/-- C5 witness: a non-`"1"` payload field yields `false` without raising. -/
theorem bool_ops_compare_field_to_one_witness :
    get_dut_present "0;25;0" = .ok false :=
  ((bool_ops_compare_field_to_one "0;25;0" ["0", "25", "0"] "0" "").1
    (by decide) (by decide)).trans (by decide)

/-- C6: in `set_dut_power` the 500 ms settle delay happens exactly on the
success path: after a confirmed acknowledgment the trace is the sent frame
followed by the sleep (the operation returns only after the delay), and on
any raised error no sleep occurs. -/
theorem set_dut_power_delay_on_ack (p e o : Bool) (response : String) :
    ((set_dut_power p e o response).2 = none →
      (set_dut_power p e o response).1 =
        [.send (build_cmd ["24", pyBoolArg p, pyBoolArg e, pyBoolArg o]), .sleep 500])
    ∧ ((set_dut_power p e o response).2 ≠ none →
        Event.sleep 500 ∉ (set_dut_power p e o response).1)
    ∧ (Event.sleep 500 ∈ (set_dut_power p e o response).1 ↔
        (set_dut_power p e o response).2 = none) := by
  unfold set_dut_power
  cases hr : get_command_response "1" response <;> simp

/-- C6 witness: on acknowledgment `"0;1;"` the trace ends with the 500 ms
sleep. -/
theorem set_dut_power_delay_on_ack_witness :
    (set_dut_power false false false "0;1;").1 =
      [.send (build_cmd ["24", "0", "0", "0"]), .sleep 500] :=
  (set_dut_power_delay_on_ack false false false "0;1;").1 (by decide)

/-- C7: both `SerialDevice` methods first run the ensure-open check, the
checked state is always open (so the write and the line read act on an
open medium), an already-open line is left untouched by the check, and the
check is idempotent across repeated calls. -/
theorem serial_lazy_open (s : PySerial) (data : List Nat) (n : Nat) :
    (ensure_open s).is_open = true
    ∧ send_command s data = serialWrite (ensure_open s) data
    ∧ receive_output s n = serialReadline (ensure_open s)
    ∧ (s.is_open = true → ensure_open s = s)
    ∧ ensure_open (ensure_open s) = ensure_open s := by
  cases hb : s.is_open <;>
    simp [ensure_open, serialOpen, send_command, receive_output, hb]

/-- C7 witness: an already-open line is untouched by the check. -/
theorem serial_lazy_open_witness :
    ensure_open ⟨true, [], []⟩ = (⟨true, [], []⟩ : PySerial) :=
  (serial_lazy_open ⟨true, [], []⟩ [] 0).2.2.2.1 rfl

/-- C8: `SerialDevice.receive_output` does not depend on its length
argument — for any two lengths and the same handle state, the result
(returned bytes and new state) is identical, and the bytes returned are
one line up to the line terminator. -/
theorem receive_output_ignores_length (s : PySerial) (na nb : Nat) :
    receive_output s na = receive_output s nb
    ∧ (receive_output s na).2 = takeLine s.inBuffer := by
  refine ⟨rfl, ?_⟩
  cases hb : s.is_open <;>
    simp [receive_output, serialReadline, ensure_open, serialOpen, hb]

/-- C9: the response reader's access to field 1 is unguarded: a response
with no `;` (a single split field, e.g. the empty response) raises an
`IndexError`, not a `TS3Error`; and a NACK with no field 2 (`"0;2"`)
raises an `IndexError` inside NACK handling. -/
theorem response_missing_fields_index_error :
    (∀ expected response, (pySplitSemi response).length = 1 →
      get_command_response expected response = .error .indexError)
    ∧ (∀ expected, get_command_response expected "" = .error .indexError)
    ∧ (∀ expected, get_command_response expected "0;2" = .error .indexError)
    ∧ isTs3 .indexError = false := by
  refine ⟨fun expected response h => ?_, fun expected => rfl, fun expected => rfl, rfl⟩
  have hn : (pySplitSemi response).get? 1 = none := by
    rw [List.get?_eq_none]
    omega
  simp only [get_command_response]
  rw [hn]

/-- C9 witness: a separator-free response raises an `IndexError`. -/
theorem response_missing_fields_index_error_witness :
    get_command_response "1" "noseparator" = .error .indexError :=
  response_missing_fields_index_error.1 "1" "noseparator" (by decide)

/-- C10: `save_settings` and `recall_settings` raise `ValueError` exactly
when the memory store is below 0 or above 49, send nothing on that error
path, and for stores in `0..49` send exactly their one command string with
no validation error. -/
theorem memory_store_range_check (sent : List String) (n : Int) :
    ((save_settings sent n).2 = some memoryStoreError ↔ n < 0 ∨ n > 49)
    ∧ ((recall_settings sent n).2 = some memoryStoreError ↔ n < 0 ∨ n > 49)
    ∧ ((n < 0 ∨ n > 49) →
        save_settings sent n = (sent, some memoryStoreError)
        ∧ recall_settings sent n = (sent, some memoryStoreError))
    ∧ (0 ≤ n → n ≤ 49 →
        save_settings sent n = (sent ++ ["*SAV " ++ toString n ++ "\n"], none)
        ∧ recall_settings sent n = (sent ++ ["*RCL " ++ toString n ++ "\n"], none)) := by
  by_cases h : n < 0 ∨ n > 49
  · refine ⟨by simp [save_settings, h], by simp [recall_settings, h],
      fun _ => ⟨by simp [save_settings, h], by simp [recall_settings, h]⟩,
      fun h1 h2 => absurd h (by omega)⟩
  · refine ⟨by simp [save_settings, h], by simp [recall_settings, h],
      fun hx => absurd hx h,
      fun h1 h2 => ⟨by simp [save_settings, h], by simp [recall_settings, h]⟩⟩

/-- C10 witness: store 50 is rejected with nothing sent; store 3 sends its
one command. -/
theorem memory_store_range_check_witness :
    save_settings [] 50 = ([], some memoryStoreError)
    ∧ save_settings [] 3 = (["*SAV 3\n"], none) :=
  ⟨((memory_store_range_check [] 50).2.2.1 (by decide)).1,
   (((memory_store_range_check [] 3).2.2.2 (by decide) (by decide)).1).trans (by decide)⟩

end Instrumentpy
